import Mathlib

/-!
Shallow embedding of `monitor.py` (temperature threshold monitor).

The monitor keeps one mutable variable `is_above : Option Bool`
(`None` = unknown, `some false` = below, `some true` = above) and, on each
poll cycle of `run_monitor`, classifies the fetched temperature against the
configured threshold, optionally sends a notification, and updates the
variable.  Temperatures and thresholds are modelled as rationals; the
notification transport is modelled by an explicit delivery outcome and the
HTTP document `send_logic_app` would post.
-/

namespace TemperatureMonitor

/-- Kind of decision event: `ALERT` or `RECOVERED` in `build_message`. -/
inductive EventKind
  | Alert
  | Recovered
deriving DecidableEq, Repr

/-- The configuration read by `run_monitor` from the environment, restricted
to the fields that drive the decision logic: `THRESHOLD`, `HYSTERESIS`, and
`ON_ABOVE_ONLY` (the alert-on-cross-only flag). -/
structure Config where
  threshold : ℚ
  hysteresis : ℚ
  onAboveOnly : Bool
deriving DecidableEq, Repr

/-- The pure decision logic of one poll evaluation, from `run_monitor`
lines 184-205 of `monitor.py`, with delivery assumed to succeed:

* `currently_above = temp > threshold`;
* `is_above is None`: record the baseline, no event;
* `not is_above and currently_above`: alert and set `is_above = True`;
* `is_above and not currently_above`: hold inside the hysteresis band
  (`hysteresis > 0 and temp > threshold - hysteresis`), otherwise set
  `is_above = False` and emit `Recovered` unless `on_above_only`;
* remaining cases: steady state, no change, no event. -/
def step (cfg : Config) (s : Option Bool) (temp : ℚ) :
    Option Bool × Option EventKind :=
  let currentlyAbove : Bool := decide (cfg.threshold < temp)
  match s with
  | none => (some currentlyAbove, none)
  | some false =>
      if currentlyAbove then (some true, some EventKind.Alert)
      else (some false, none)
  | some true =>
      if currentlyAbove then (some true, none)
      else if 0 < cfg.hysteresis ∧ cfg.threshold - cfg.hysteresis < temp then
        (some true, none)
      else if cfg.onAboveOnly then (some false, none)
      else (some false, some EventKind.Recovered)

/-- One poll evaluation with the delivery attempt interleaved exactly as in
the source: `send_logic_app` runs *before* the assignment to `is_above`
(lines 194-195 and 204-205), so a delivery failure (`deliveryOk = false`
where a send is attempted) raises out of the loop body and the assignment
never executes — the result is `Except.error ()` and the caller keeps the
old state.  When `on_above_only` is set, the recovery transition performs no
send at all and cannot raise. -/
def stepSend (cfg : Config) (s : Option Bool) (temp : ℚ)
    (deliveryOk : Bool) : Except Unit (Option Bool × Option EventKind) :=
  let currentlyAbove : Bool := decide (cfg.threshold < temp)
  match s with
  | none => Except.ok (some currentlyAbove, none)
  | some false =>
      if currentlyAbove then
        if deliveryOk then Except.ok (some true, some EventKind.Alert)
        else Except.error ()
      else Except.ok (some false, none)
  | some true =>
      if currentlyAbove then Except.ok (some true, none)
      else if 0 < cfg.hysteresis ∧ cfg.threshold - cfg.hysteresis < temp then
        Except.ok (some true, none)
      else if cfg.onAboveOnly then Except.ok (some false, none)
      else if deliveryOk then Except.ok (some false, some EventKind.Recovered)
      else Except.error ()

/-- The exception classes distinguished by `run_monitor`'s outer handler:
`KeyboardInterrupt` breaks the loop, every other `Exception` (psycopg2
connection errors and `requests` delivery errors alike) is logged and
retried. -/
inductive Exc
  | keyboardInterrupt
  | error
deriving DecidableEq, Repr

/-- What the outer `while True` does after an exception escapes the inner
loop: `KeyboardInterrupt` → clean shutdown (`break`); any other exception →
log, `time.sleep(5)`, and reconnect on the next outer iteration. -/
inductive LoopAction
  | shutdown
  | backoffAndReconnect (delaySeconds : ℕ)
deriving DecidableEq, Repr

/-- `run_monitor` lines 208-214: the outer exception handler. -/
def outerHandle : Exc → LoopAction
  | Exc.keyboardInterrupt => LoopAction.shutdown
  | Exc.error => LoopAction.backoffAndReconnect 5

/-- Input to one inner poll cycle: either the connection attempt / fetch
raises (`connFail`), or a fetch returns no rows (`fetch none _`), or a fetch
returns a temperature together with the outcome the notification sink would
give if a send is attempted. -/
inductive CycleIn
  | connFail
  | fetch (reading : Option ℚ) (deliveryOk : Bool)

/-- Outcome of one inner poll cycle of `run_monitor` (lines 174-207):
`Except.ok` carries the value of `is_above` after the cycle; `Except.error`
means an exception escaped to the outer handler, in which case the variable
`is_above` was left untouched.  An empty fetch only logs and skips. -/
def cycleResult (cfg : Config) (s : Option Bool) :
    CycleIn → Except Exc (Option Bool)
  | CycleIn.connFail => Except.error Exc.error
  | CycleIn.fetch none _ => Except.ok s
  | CycleIn.fetch (some v) ok =>
      match stepSend cfg s v ok with
      | Except.ok (s', _) => Except.ok s'
      | Except.error _ => Except.error Exc.error

/-- The value of `is_above` after one cycle, whether or not the cycle
raised: an escaped exception leaves the closure variable unchanged and the
outer loop reconnects with the same state. -/
def superStep (cfg : Config) (s : Option Bool) (c : CycleIn) : Option Bool :=
  match cycleResult cfg s c with
  | Except.ok s' => s'
  | Except.error _ => s

/-- The value of `is_above` after a whole trace of cycles, connection
failures and reconnects included. -/
def superRun (cfg : Config) (s : Option Bool) (tr : List CycleIn) :
    Option Bool :=
  tr.foldl (superStep cfg) s

/-- The (state, event) pairs produced by feeding a list of readings into the
decision logic in order, threading the state (deliveries succeeding). -/
def runTrace (cfg : Config) (s : Option Bool) :
    List ℚ → List (Option Bool × Option EventKind)
  | [] => []
  | v :: vs =>
      let r := step cfg s v
      r :: runTrace cfg r.1 vs

/-- Just the per-reading events of `runTrace`. -/
def runEvents (cfg : Config) (s : Option Bool) (vs : List ℚ) :
    List (Option EventKind) :=
  (runTrace cfg s vs).map Prod.snd

/-- A JSON-like document, enough to describe the body `send_logic_app`
posts. -/
inductive Json
  | str (s : String)
  | obj (fields : List (String × Json))
  | arr (elems : List Json)

/-- The HTTP POST `send_logic_app` performs: `requests.post(url, json=payload,
timeout=15, verify=verify_tls)`. -/
structure HttpRequest where
  url : String
  body : Json
  timeoutSeconds : ℕ
  verifyTls : Bool

/-- `send_logic_app` from `monitor.py` lines 132-148, modelled as the request
it constructs.  The `payload` dict in the source is built from the fixed
adaptive-card skeleton and `message` only; the `payload_key` parameter is
accepted but never read. -/
def send_logic_app (url : String) (message : String) (payload_key : String)
    (verify_tls : Bool) : HttpRequest :=
  { url := url
    body := Json.obj
      [("attachments", Json.arr
        [Json.obj
          [("contentType", Json.str "application/vnd.microsoft.card.adaptive"),
           ("content", Json.obj
             [("$schema",
               Json.str "http://adaptivecards.io/schemas/adaptive-card.json"),
              ("type", Json.str "AdaptiveCard"),
              ("version", Json.str "1.4"),
              ("body", Json.arr
                [Json.obj
                  [("type", Json.str "TextBlock"),
                   ("size", Json.str "Large"),
                   ("weight", Json.str "Bolder"),
                   ("text", Json.str "Temperature Monitor")],
                 Json.obj
                  [("type", Json.str "TextBlock"),
                   ("text", Json.str message)]])])]])]
    timeoutSeconds := 15
    verifyTls := verify_tls }

/-- The example configuration of the spec's end-to-end trace:
threshold 28.5, hysteresis 0.3, recovery notifications enabled. -/
def exampleConfig : Config :=
  { threshold := 57/2, hysteresis := 3/10, onAboveOnly := false }

/-- With a working sink, the delivery-aware cycle computes exactly the pure
decision logic: the send happens and then the assignment runs. -/
theorem stepSend_true (cfg : Config) (s : Option Bool) (v : ℚ) :
    stepSend cfg s v true = Except.ok (step cfg s v) := by
  rcases s with _ | b
  · rfl
  · cases b <;> simp only [stepSend, step] <;> split_ifs <;> rfl

/-- Whenever the pure decision logic would emit an event, a failing sink
makes the cycle raise: the send precedes the state assignment in the
source, so the raise aborts the cycle. -/
theorem stepSend_false_of_event (cfg : Config) (s : Option Bool) (v : ℚ)
    (e : EventKind) (h : (step cfg s v).2 = some e) :
    stepSend cfg s v false = Except.error () := by
  rcases s with _ | b
  · simp [step] at h
  · cases b <;> simp only [stepSend, step] at h ⊢ <;>
      split_ifs at h ⊢ <;> simp_all

end TemperatureMonitor

namespace TemperatureMonitor

/-- Claim C1, counterexample.  With threshold 0, hysteresis 0 and recovery
messages enabled, take phase Below and a reading of 1 whose Alert delivery
fails: the cycle raises (`Except.error`), the phase after the cycle is still
Below — it was not advanced before the delivery attempt — and on the next
cycle the same reading attempts the same Alert again, so the missed
notification does re-fire. -/
theorem delivery_failure_counterexample :
    stepSend ⟨0, 0, false⟩ (some false) 1 false = Except.error () ∧
    superStep ⟨0, 0, false⟩ (some false) (CycleIn.fetch (some 1) false) =
      some false ∧
    superStep ⟨0, 0, false⟩ (some false) (CycleIn.fetch (some 1) false) ≠
      some true ∧
    stepSend ⟨0, 0, false⟩ (some false) 1 true =
      Except.ok (some true, some EventKind.Alert) := by
  exact ⟨rfl, rfl, by decide, rfl⟩

/-- Claim C1, amended.  For every emitted DecisionEvent whose delivery
fails, the exception propagates before the assignment to `is_above`: the
phase transition is not advanced, the state is unchanged after the cycle,
and the next poll cycle for a reading on the same side of the threshold
re-attempts the same event (the send is retried, not lost). -/
theorem delivery_failure_leaves_state (cfg : Config) (s : Option Bool)
    (v : ℚ) (e : EventKind) (he : (step cfg s v).2 = some e) :
    superStep cfg s (CycleIn.fetch (some v) false) = s ∧
    stepSend cfg s v true = Except.ok (step cfg s v) := by
  refine ⟨?_, stepSend_true cfg s v⟩
  simp [superStep, cycleResult, stepSend_false_of_event cfg s v e he]

/-- Witness for `delivery_failure_leaves_state` at threshold 0, phase
Below, reading 1. -/
theorem delivery_failure_leaves_state_witness :
    superStep ⟨0, 0, false⟩ (some false) (CycleIn.fetch (some 1) false) =
      some false ∧
    stepSend ⟨0, 0, false⟩ (some false) 1 true =
      Except.ok (step ⟨0, 0, false⟩ (some false) 1) :=
  delivery_failure_leaves_state ⟨0, 0, false⟩ (some false) 1 EventKind.Alert
    rfl

/-- Claim C2: while the phase is Above with hysteresis `H > 0` and threshold
`T`, a reading `v` with `T - H < v ≤ T` keeps the phase Above and emits no
event (in-band hold). -/
theorem above_in_band_holds (cfg : Config) (v : ℚ)
    (hH : 0 < cfg.hysteresis) (hlo : cfg.threshold - cfg.hysteresis < v)
    (hhi : v ≤ cfg.threshold) :
    step cfg (some true) v = (some true, none) := by
  have hna : ¬ cfg.threshold < v := not_lt.mpr hhi
  simp [step, hna, hH, hlo]

/-- Witness for `above_in_band_holds`: threshold 10, hysteresis 1,
reading 10. -/
theorem above_in_band_holds_witness :
    step ⟨10, 1, false⟩ (some true) 10 = (some true, none) :=
  above_in_band_holds ⟨10, 1, false⟩ 10 (by norm_num) (by norm_num)
    (by norm_num)

/-- Claim C3: from phase Above, a reading `v ≤ T - H` moves the phase to
Below, and a Recovered event is emitted iff `alertOnCrossOnly` is false;
with the flag set the phase still transitions but nothing is emitted. -/
theorem above_recovery_transition (cfg : Config) (v : ℚ)
    (hH : 0 ≤ cfg.hysteresis) (hv : v ≤ cfg.threshold - cfg.hysteresis) :
    step cfg (some true) v =
      (some false,
        if cfg.onAboveOnly then none else some EventKind.Recovered) := by
  have h1 : ¬ cfg.threshold < v := not_lt.mpr (by linarith)
  have h2 : ¬ cfg.threshold - cfg.hysteresis < v := not_lt.mpr hv
  cases h : cfg.onAboveOnly <;> simp [step, h1, h2, h]

/-- Witness for `above_recovery_transition`: threshold 10, hysteresis 2,
recovery enabled, reading 8. -/
theorem above_recovery_transition_witness :
    step ⟨10, 2, false⟩ (some true) 8 =
      (some false, some EventKind.Recovered) := by
  simpa using above_recovery_transition ⟨10, 2, false⟩ 8 (by norm_num)
    (by norm_num)

/-- Claim C4: the first reading processed from phase Unknown sets the phase
to Above iff the value strictly exceeds the threshold, Below otherwise, and
emits no event. -/
theorem first_reading_baseline (cfg : Config) (v : ℚ) :
    (cfg.threshold < v → step cfg none v = (some true, none)) ∧
    (v ≤ cfg.threshold → step cfg none v = (some false, none)) := by
  constructor
  · intro h; simp [step, h]
  · intro h; simp [step, not_lt.mpr h]

/-- Witness for `first_reading_baseline`: threshold 10 with first readings
11 and 10. -/
theorem first_reading_baseline_witness :
    step ⟨10, 1, false⟩ none 11 = (some true, none) ∧
    step ⟨10, 1, false⟩ none 10 = (some false, none) :=
  ⟨(first_reading_baseline ⟨10, 1, false⟩ 11).1 (by norm_num),
   (first_reading_baseline ⟨10, 1, false⟩ 10).2 (by norm_num)⟩

/-- Claim C5: a reading exactly equal to the threshold is not "above": from
phase Below it never alerts, and from phase Above it enters the recovery
classification — held in the band when `H > 0` (since `T > T - H`), and
recovering when `H = 0`. -/
theorem threshold_equality_not_above (cfg : Config) (v : ℚ)
    (hv : v = cfg.threshold) :
    step cfg (some false) v = (some false, none) ∧
    (0 < cfg.hysteresis → step cfg (some true) v = (some true, none)) ∧
    (cfg.hysteresis = 0 → step cfg (some true) v =
      (some false,
        if cfg.onAboveOnly then none else some EventKind.Recovered)) := by
  subst hv
  refine ⟨by simp [step], fun hH => ?_, fun hH => ?_⟩
  · have hband : cfg.threshold - cfg.hysteresis < cfg.threshold := by linarith
    simp [step, hH, hband]
  · cases h : cfg.onAboveOnly <;> simp [step, hH, h]

/-- Witness for `threshold_equality_not_above`: threshold 10, hysteresis 0,
reading exactly 10. -/
theorem threshold_equality_not_above_witness :
    step ⟨10, 0, false⟩ (some false) 10 = (some false, none) ∧
    step ⟨10, 0, false⟩ (some true) 10 =
      (some false, some EventKind.Recovered) := by
  have h := threshold_equality_not_above ⟨10, 0, false⟩ 10 rfl
  exact ⟨h.1, by simpa using h.2.2 rfl⟩

/-- One cycle never sends a non-Unknown phase back to Unknown: connection
failures and raised deliveries leave the variable untouched, empty fetches
skip, and every state the decision logic assigns is `some _`. -/
theorem superStep_ne_none (cfg : Config) (s : Option Bool) (c : CycleIn)
    (hs : s ≠ none) : superStep cfg s c ≠ none := by
  cases c with
  | connFail => simpa [superStep, cycleResult] using hs
  | fetch r ok =>
    cases r with
    | none => simpa [superStep, cycleResult] using hs
    | some v =>
      rcases s with _ | b
      · exact absurd rfl hs
      · cases b <;> cases ok <;>
          simp only [superStep, cycleResult, stepSend] <;>
          split_ifs <;> simp

/-- Claim C6: once the phase leaves Unknown it never returns to Unknown
over any trace of poll cycles, connection failures and reconnects included;
in particular a connection failure (disconnect followed by reconnect)
preserves the AlertState exactly. -/
theorem phase_never_returns_unknown (cfg : Config) (s : Option Bool)
    (tr : List CycleIn) (hs : s ≠ none) :
    superRun cfg s tr ≠ none ∧ superStep cfg s CycleIn.connFail = s := by
  refine ⟨?_, rfl⟩
  induction tr generalizing s with
  | nil => exact hs
  | cons c cs ih => exact ih (superStep cfg s c) (superStep_ne_none cfg s c hs)

/-- Witness for `phase_never_returns_unknown`: phase Below survives a
disconnect, an alerting cycle, and another disconnect. -/
theorem phase_never_returns_unknown_witness :
    superRun ⟨10, 1, false⟩ (some false)
      [CycleIn.connFail, CycleIn.fetch (some 11) true, CycleIn.connFail] ≠
      none ∧
    superStep ⟨10, 1, false⟩ (some false) CycleIn.connFail = some false :=
  phase_never_returns_unknown ⟨10, 1, false⟩ (some false)
    [CycleIn.connFail, CycleIn.fetch (some 11) true, CycleIn.connFail]
    (by simp)

/-- Claim C7, counterexample.  Feeding 29.0, 28.4, 28.1, 30.0 into the
state machine from its initial state (phase Unknown) yields no event for
29.0 — the first observation only records the baseline Above — so the
claimed per-reading output `Alert, none, Recovered, Alert` is wrong on the
first reading. -/
theorem example_trace_fresh_counterexample :
    runEvents exampleConfig none [29, 28.4, 28.1, 30] =
      [none, none, some EventKind.Recovered, some EventKind.Alert] ∧
    runEvents exampleConfig none [29, 28.4, 28.1, 30] ≠
      [some EventKind.Alert, none, some EventKind.Recovered,
        some EventKind.Alert] := by
  constructor
  · norm_num [runEvents, runTrace, step, exampleConfig]
  · norm_num [runEvents, runTrace, step, exampleConfig]
    simp

/-- Claim C7, amended.  With threshold 28.5 and hysteresis 0.3, the
readings 29.0, 28.4, 28.1, 30.0 fed in order into a machine whose phase is
already Below yield per reading: Alert for 29.0; no event for 28.4 (in the
band, 28.2 < 28.4 ≤ 28.5); Recovered for 28.1; Alert for 30.0.  (From the
fresh Unknown state the first reading only establishes the baseline and
emits nothing.) -/
theorem example_trace_from_below :
    runEvents exampleConfig (some false) [29, 28.4, 28.1, 30] =
      [some EventKind.Alert, none, some EventKind.Recovered,
        some EventKind.Alert] := by
  norm_num [runEvents, runTrace, step, exampleConfig]

/-- Claim C8: the decision logic is a deterministic function of the
configuration, the initial state, and the reading sequence — two fresh runs
over the same ordered readings produce identical (phase, event) traces. -/
theorem sequence_determinism (cfg : Config) (rs₁ rs₂ : List ℚ)
    (h : rs₁ = rs₂) :
    runTrace cfg none rs₁ = runTrace cfg none rs₂ := by
  rw [h]

/-- Witness for `sequence_determinism` on the spec's example readings. -/
theorem sequence_determinism_witness :
    runTrace exampleConfig none [29, 28.1] =
      runTrace exampleConfig none [29, 28.1] :=
  sequence_determinism exampleConfig [29, 28.1] [29, 28.1] rfl

/-- Claim C9: `send_logic_app` builds the same outgoing request — in
particular the same JSON document, the fixed adaptive-card attachment
around the message — for any two values of the `payload_key` argument; the
parameter is accepted but has no effect on the delivered payload. -/
theorem payload_key_has_no_effect (url message k₁ k₂ : String)
    (verify_tls : Bool) :
    send_logic_app url message k₁ verify_tls =
      send_logic_app url message k₂ verify_tls := rfl

/-- Claim C10: when a delivery raises inside the inner poll loop (any cycle
on which the decision logic emits an event but the sink fails), the cycle
ends in the same `Exception` class as a Reading Source connection failure;
the outer handler maps it to a 5-second backoff followed by reconnect, not
to termination. -/
theorem delivery_failure_recovery_path (cfg : Config) (s : Option Bool)
    (v : ℚ) (e : EventKind) (he : (step cfg s v).2 = some e) :
    cycleResult cfg s (CycleIn.fetch (some v) false) =
      Except.error Exc.error ∧
    cycleResult cfg s CycleIn.connFail = Except.error Exc.error ∧
    outerHandle Exc.error = LoopAction.backoffAndReconnect 5 ∧
    outerHandle Exc.error ≠ LoopAction.shutdown := by
  refine ⟨?_, rfl, rfl, by decide⟩
  simp [cycleResult, stepSend_false_of_event cfg s v e he]

/-- Witness for `delivery_failure_recovery_path`: threshold 0, phase Below,
reading 1 with a failing sink. -/
theorem delivery_failure_recovery_path_witness :
    cycleResult ⟨0, 0, false⟩ (some false) (CycleIn.fetch (some 1) false) =
      Except.error Exc.error ∧
    cycleResult ⟨0, 0, false⟩ (some false) CycleIn.connFail =
      Except.error Exc.error ∧
    outerHandle Exc.error = LoopAction.backoffAndReconnect 5 ∧
    outerHandle Exc.error ≠ LoopAction.shutdown :=
  delivery_failure_recovery_path ⟨0, 0, false⟩ (some false) 1
    EventKind.Alert rfl

end TemperatureMonitor
